import Mathlib

/-!
Shallow embedding of the M3S3P repository (OpenMP and OpenCL vector addition).

Sources:
* `src/unnamed/part_000` — OpenMP program: `vector_add_openmp`, `init`, `print`, `main`.
* `src/vector_add_opencl.cpp` — OpenCL host program: `main`, `init`, `print`,
  `free_memory`, `copy_kernel_args`, `setup_kernel_memory`,
  `setup_openCL_device_context_queue_kernel`, `build_program`, `create_device`.

Machine `int` values are modelled as `Int` with two's-complement wrap-around at
32 bits where an arithmetic result can leave the representable range.
-/

/-- Two's-complement wrap of a mathematical integer into the signed 32-bit
range [-2^31, 2^31). This models the value stored by a C `int` assignment. -/
def wrap32 (x : Int) : Int :=
  (x + 2147483648) % 4294967296 - 2147483648

theorem wrap32_eq_of_range (x : Int) (hlo : -2147483648 ≤ x) (hhi : x < 2147483648) :
    wrap32 x = x := by
  unfold wrap32
  have h1 : (0 : Int) ≤ x + 2147483648 := by omega
  have h2 : x + 2147483648 < 4294967296 := by omega
  rw [Int.emod_eq_of_lt h1 h2]
  omega

/-- Host state of the OpenMP program: the three malloc'd arrays
`v1`, `v2`, `v_out` (modelled as total functions on indices). -/
structure VAState where
  v1 : Int → Int
  v2 : Int → Int
  vout : Int → Int

/-- The body of the loop in `vector_add_openmp` (part_000, lines 16-18):
`for (int i = 0; i < size; i++) v_out[i] = v1[i] + v2[i];`
run sequentially starting at index `start` for `fuel` iterations.
The `#pragma omp parallel for` distributes independent iterations (each writes
only its own index), so the sequential order computes the same array. -/
def vaLoop (v1 v2 : Int → Int) (vout : Int → Int) (start : Int) : Nat → (Int → Int)
  | 0 => vout
  | n + 1 =>
      vaLoop v1 v2 (Function.update vout start (wrap32 (v1 start + v2 start))) (start + 1) n

/-- `vector_add_openmp` (part_000, lines 14-19): the loop runs for the indices
`0 ≤ i < size` (no iterations when `size ≤ 0`) and writes only `v_out`. -/
def vector_add_openmp (st : VAState) (size : Int) : VAState :=
  { st with vout := vaLoop st.v1 st.v2 st.vout 0 size.toNat }

theorem vaLoop_get (v1 v2 : Int → Int) (vout : Int → Int) (start : Int) (fuel : Nat)
    (j : Int) :
    vaLoop v1 v2 vout start fuel j =
      if start ≤ j ∧ j < start + (fuel : Int) then wrap32 (v1 j + v2 j) else vout j := by
  induction fuel generalizing vout start with
  | zero =>
      simp only [vaLoop, Nat.cast_zero, add_zero]
      split
      · omega
      · rfl
  | succ n ih =>
      rw [vaLoop, ih]
      simp only [Function.update_apply, Nat.cast_succ]
      split_ifs with h1 h2 h3 h4 h5
      · rfl
      · omega
      · subst h3; rfl
      · omega
      · omega
      · rfl

/-- C1: the claim as stated quantifies over ALL input vectors of machine ints.
At `N = 1`, `a = [2147483647]`, `b = [1]` the stored 32-bit sum wraps to
`-2147483648`, so `out[0] ≠ a[0] + b[0]`: the claim is false in general. -/
theorem c1_counterexample :
    (vector_add_openmp ⟨fun _ => 2147483647, fun _ => 1, fun _ => 0⟩ 1).vout 0 =
        -2147483648 ∧
    (2147483647 : Int) + 1 = 2147483648 ∧
    (vector_add_openmp ⟨fun _ => 2147483647, fun _ => 1, fun _ => 0⟩ 1).vout 0 ≠
        2147483647 + 1 := by
  refine ⟨?_, by norm_num, ?_⟩ <;> decide

/-- C1 (amended): for every size and all inputs, for every index `i` in
`[0, size)` whose element sum fits the signed 32-bit range (as the program's
random inputs in [0, 99] always do), the output element after
`vector_add_openmp` equals the exact sum `v1[i] + v2[i]`. -/
theorem c1_amended (st : VAState) (size i : Int) (h0 : 0 ≤ i) (h1 : i < size)
    (hlo : -2147483648 ≤ st.v1 i + st.v2 i) (hhi : st.v1 i + st.v2 i < 2147483648) :
    (vector_add_openmp st size).vout i = st.v1 i + st.v2 i := by
  simp only [vector_add_openmp]
  rw [vaLoop_get, if_pos (by constructor <;> omega)]
  exact wrap32_eq_of_range _ hlo hhi

theorem c1_amended_witness :
    (vector_add_openmp ⟨fun _ => 40, fun _ => 2, fun _ => 0⟩ 3).vout 1 = 42 := by
  simpa using c1_amended ⟨fun _ => 40, fun _ => 2, fun _ => 0⟩ 3 1 (by decide) (by decide)
    (by decide) (by decide)

/-- Modelled from the spec: the kernel source file `vector_ops_ocl.cl` (loaded
by `main` in vector_add_opencl.cpp, line 53) is not part of the repository
snapshot under `src/`. Per the spec (§4.1, §6), its entry point
`vector_add_ocl (int size, buffer a, buffer b, buffer out)` runs one work item
per index, each computing `out[i] = a[i] + b[i]`; indices outside the dispatched
range keep the buffer's previous contents. -/
def vector_add_ocl_kernel (n : Int) (a b out : Int → Int) : Int → Int :=
  fun gid => if 0 ≤ gid ∧ gid < n then wrap32 (a gid + b gid) else out gid

/-- Host-visible result of the OpenCL path (vector_add_opencl.cpp):
`setup_kernel_memory` (lines 147-156) fills `bufV1`, `bufV2` from `v1`, `v2`;
the kernel runs over `SZ` work items (line 64); `clEnqueueReadBuffer` (line 70)
copies `SZ` ints of the output buffer back into `v_out`. `devInit` is the
unspecified initial content of the freshly created output buffer. -/
def ocl_host_result (v1 v2 vout devInit : Int → Int) (sz : Int) : Int → Int :=
  let bufV1 := v1
  let bufV2 := v2
  let bufVout := vector_add_ocl_kernel sz bufV1 bufV2 devInit
  fun i => if 0 ≤ i ∧ i < sz then bufVout i else vout i

/-- C2: for the same inputs `v1`, `v2` of length `sz`, every element of the
OpenCL-path output vector equals the corresponding element of the OpenMP-path
output vector. -/
theorem c2_paths_agree (v1 v2 vout voutOmp devInit : Int → Int) (sz i : Int)
    (h0 : 0 ≤ i) (h1 : i < sz) :
    ocl_host_result v1 v2 vout devInit sz i =
      (vector_add_openmp ⟨v1, v2, voutOmp⟩ sz).vout i := by
  simp only [ocl_host_result, vector_add_ocl_kernel, vector_add_openmp]
  rw [vaLoop_get, if_pos ⟨h0, h1⟩, if_pos ⟨h0, h1⟩, if_pos (by constructor <;> omega)]

theorem c2_paths_agree_witness :
    ocl_host_result (fun _ => 7) (fun _ => 8) (fun _ => 0) (fun _ => 99) 2 1 =
      (vector_add_openmp ⟨fun _ => 7, fun _ => 8, fun _ => 0⟩ 2).vout 1 :=
  c2_paths_agree (fun _ => 7) (fun _ => 8) (fun _ => 0) (fun _ => 0) (fun _ => 99) 2 1
    (by decide) (by decide)

/-- C10: `vector_add_openmp` writes only `v_out`, and only at indices in
`[0, size)`: `v1` and `v2` are returned unchanged (the loop body assigns only
`v_out[i]`), every out-of-range index of `v_out` keeps its old value, and for
`size ≤ 0` the loop performs no iterations, leaving all three arrays equal to
their inputs. -/
theorem c10_frame (st : VAState) (size : Int) :
    (vector_add_openmp st size).v1 = st.v1 ∧
    (vector_add_openmp st size).v2 = st.v2 ∧
    (∀ j : Int, j < 0 ∨ size ≤ j → (vector_add_openmp st size).vout j = st.vout j) ∧
    (size ≤ 0 → vector_add_openmp st size = st) := by
  refine ⟨rfl, rfl, ?_, ?_⟩
  · intro j hj
    simp only [vector_add_openmp]
    rw [vaLoop_get, if_neg (by omega)]
  · intro hsz
    have hz : size.toNat = 0 := by omega
    simp only [vector_add_openmp, hz, vaLoop]
theorem c10_frame_witness :
    ((vector_add_openmp ⟨fun _ => 5, fun _ => 6, fun _ => 7⟩ 4).vout 9 = 7) ∧
    (vector_add_openmp ⟨fun _ => 5, fun _ => 6, fun _ => 7⟩ (-1) =
      ⟨fun _ => 5, fun _ => 6, fun _ => 7⟩) :=
  ⟨(c10_frame ⟨fun _ => 5, fun _ => 6, fun _ => 7⟩ 4).2.2.1 9 (Or.inr (by decide)),
   (c10_frame ⟨fun _ => 5, fun _ => 6, fun _ => 7⟩ (-1)).2.2.2 (by decide)⟩

/-- One console token emitted by `print`: a `%d ` element, the fixed
`" ..... "` ellipsis marker, or the trailing `"\n---...---\n"` footer. -/
inductive Tok where
  | num (v : Int)
  | dots
  | footer
  deriving DecidableEq

/-- `#define PRINT 1` (both source files, line 6/7). -/
def PRINT : Int := 1

/-- One `for (long i = lo; i < hi; i++) printf("%d ", A[i]);` loop of `print`,
started at `i` and running for `fuel = (hi - lo).toNat` iterations. -/
def printLoop (A : Int → Int) (i : Int) : Nat → List Tok
  | 0 => []
  | n + 1 => Tok.num (A i) :: printLoop A (i + 1) n

/-- `print` (part_000 lines 74-93 and vector_add_opencl.cpp lines 95-114, the
two copies are identical): nothing when `PRINT == 0`; for `PRINT == 1` and
`size > 15` the elements at `0..4`, the ellipsis, the elements at
`size-5..size-1`; otherwise all elements `0..size-1`; then the footer line. -/
def print (A : Int → Int) (size : Int) : List Tok :=
  if PRINT = 0 then []
  else if PRINT = 1 ∧ 15 < size then
    printLoop A 0 ((5 : Int) - 0).toNat ++ [Tok.dots] ++
      printLoop A (size - 5) (size - (size - 5)).toNat ++ [Tok.footer]
  else
    printLoop A 0 (size - 0).toNat ++ [Tok.footer]

theorem printLoop_eq_map (A : Int → Int) (i : Int) (n : Nat) :
    printLoop A i n = (List.range n).map (fun k : Nat => Tok.num (A (i + (k : Int)))) := by
  induction n generalizing i with
  | zero => rfl
  | succ n ih =>
      rw [printLoop, ih, List.range_succ_eq_map, List.map_cons, List.map_map]
      simp only [Nat.cast_zero, add_zero]
      congr 1
      apply List.map_congr_left
      intro k _
      simp only [Function.comp_apply]
      congr 1
      congr 1
      push_cast
      omega

/-- C6: for `0 ≤ size ≤ 15`, `print` outputs all `size` elements of `A` in
order (then the footer); for `size > 15` it outputs exactly the elements at
indices `0..4`, then the ellipsis marker, then exactly the elements at indices
`size-5..size-1` (then the footer). -/
theorem c6_print (A : Int → Int) (size : Int) :
    (15 < size →
      print A size =
        ((List.range 5).map fun k : Nat => Tok.num (A (k : Int))) ++ [Tok.dots] ++
          ((List.range 5).map fun k : Nat => Tok.num (A (size - 5 + (k : Int)))) ++
          [Tok.footer]) ∧
    (0 ≤ size → size ≤ 15 →
      print A size =
        ((List.range size.toNat).map fun k : Nat => Tok.num (A (k : Int))) ++
          [Tok.footer]) := by
  constructor
  · intro h
    have h2 : (size - (size - 5)).toNat = 5 := by omega
    simp only [print, PRINT]
    rw [if_neg (by norm_num), if_pos ⟨by norm_num, h⟩, h2, printLoop_eq_map,
      printLoop_eq_map]
    simp
  · intro h0 h15
    simp only [print, PRINT]
    rw [if_neg (by norm_num), if_neg (fun hc => absurd hc.2 (by omega)), printLoop_eq_map]
    simp

theorem c6_print_witness :
    (print (fun i => i) 20 =
      ((List.range 5).map fun k : Nat => Tok.num ((k : Int))) ++ [Tok.dots] ++
        ((List.range 5).map fun k : Nat => Tok.num (20 - 5 + (k : Int))) ++
        [Tok.footer]) ∧
    (print (fun i => i) 3 =
      ((List.range (3 : Int).toNat).map fun k : Nat => Tok.num ((k : Int))) ++
        [Tok.footer]) :=
  ⟨(c6_print (fun i => i) 20).1 (by decide),
   (c6_print (fun i => i) 3).2 (by decide) (by decide)⟩

/-- C's `isspace` on the default locale, as used by `atoi` while skipping
leading whitespace. -/
def isSpaceChar (c : Char) : Bool :=
  c == ' ' || c == '\t' || c == '\n' || c == '\x0b' || c == '\x0c' || c == '\r'

/-- Digit-accumulation phase of C `atoi`: consume decimal digits, stop at the
first non-digit. (Overflow is undefined behaviour for `atoi` and is not
modelled; this program's own `SZ` is a 32-bit `int`.) -/
def atoiDigits : List Char → Int → Int
  | [], acc => acc
  | c :: rest, acc =>
      if c.isDigit then atoiDigits rest (acc * 10 + ((c.toNat : Int) - 48)) else acc

/-- C `atoi` (stdlib, called at part_000 line 26 / vector_add_opencl.cpp
line 35): skip whitespace, optional sign, decimal digits; a string with no
leading number parses to 0. -/
def atoi (s : String) : Int :=
  match s.data.dropWhile isSpaceChar with
  | '-' :: rest => -(atoiDigits rest 0)
  | '+' :: rest => atoiDigits rest 0
  | cs => atoiDigits cs 0

/-- `int SZ = 100000000;` — the default vector size (both files). -/
def SZ_default : Int := 100000000

/-- `if (argc > 1) SZ = atoi(argv[1]);` (part_000 lines 25-27,
vector_add_opencl.cpp lines 34-36): `args` is the positional argument list
after the program name. -/
def parse_size (args : List String) : Int :=
  match args with
  | [] => SZ_default
  | a :: _ => atoi a

/-- C8: with no argument, the size used is the default 100,000,000; with at
least one argument, it is the `atoi` parse of the first one; the parse is used
unvalidated — a negative value (`"-3"` → -3), a malformed value (`"abc"` → 0)
and zero (`"0"` → 0) all pass straight through as the vector length. -/
theorem c8_cli_size :
    parse_size [] = 100000000 ∧
    (∀ (s : String) (rest : List String), parse_size (s :: rest) = atoi s) ∧
    parse_size ["-3"] = -3 ∧
    parse_size ["abc"] = 0 ∧
    parse_size ["0"] = 0 := by
  refine ⟨rfl, fun s rest => rfl, ?_, ?_, ?_⟩ <;> decide

/-- `init` (part_000 lines 66-71 / vector_add_opencl.cpp lines 87-92, the two
copies are identical): `A[i] = rand() % 100` for `i = 0 .. n-1`, drawing from
the C library's pseudo-random stream. The generator is modelled abstractly as
a deterministic `randStep` on a hidden state `σ`; neither program calls
`srand`, so both start from the same default state. -/
def initArray {σ : Type} (randStep : σ → Int × σ) : Nat → σ → List Int × σ
  | 0, s => ([], s)
  | n + 1, s =>
      let p := randStep s
      let q := initArray randStep n p.2
      ((p.1 % 100) :: q.1, q.2)

/-- The OpenMP program's initialization prologue (part_000 lines 34-36):
`init(v1, SZ); init(v2, SZ); init(v_out, SZ);` consuming the random stream
from the default state `s0`. -/
def omp_init_phase {σ : Type} (randStep : σ → Int × σ) (s0 : σ) (n : Nat) :
    List Int × List Int × List Int :=
  let r1 := initArray randStep n s0
  let r2 := initArray randStep n r1.2
  let r3 := initArray randStep n r2.2
  (r1.1, r2.1, r3.1)

/-- The OpenCL program's initialization prologue (vector_add_opencl.cpp lines
39-41): `init(v1, SZ); init(v2, SZ); init(v_out, SZ);` consuming the random
stream from the default state `s0`. -/
def ocl_init_phase {σ : Type} (randStep : σ → Int × σ) (s0 : σ) (n : Nat) :
    List Int × List Int × List Int :=
  let r1 := initArray randStep n s0
  let r2 := initArray randStep n r1.2
  let r3 := initArray randStep n r2.2
  (r1.1, r2.1, r3.1)

/-- C9: initialization is deterministic. Runs are pure functions of the
generator, the shared unseeded default state `s0` and `n`, so any two runs of
one program coincide definitionally, and across the two programs the generated
`v1` and `v2` contents are identical. -/
theorem c9_deterministic_init {σ : Type} (randStep : σ → Int × σ) (s0 : σ) (n : Nat) :
    (omp_init_phase randStep s0 n).1 = (ocl_init_phase randStep s0 n).1 ∧
    (omp_init_phase randStep s0 n).2.1 = (ocl_init_phase randStep s0 n).2.1 :=
  ⟨rfl, rfl⟩

/-- Observable host events of the OpenCL program (vector_add_opencl.cpp):
console output, process exit, and the OpenCL API calls it issues. -/
inductive Ev where
  | printMsg (s : String)
  | perrorMsg (s : String)
  | printArray
  | printTiming
  | exitCode (n : Int)
  | createBuffer (idx : Nat)
  | writeBuffer (idx : Nat)
  | setArg (idx : Nat)
  | enqueueKernel
  | waitEvent
  | readBuffer
  | releaseBuf (idx : Nat)
  | releaseKernel
  | releaseQueue
  | releaseProgram
  | releaseContext
  | freeHost (idx : Nat)
  deriving DecidableEq

/-- `CL_DEVICE_NOT_FOUND` from `CL/cl.h`. -/
def CL_DEVICE_NOT_FOUND : Int := -1

/-- Behaviour of the external OpenCL API and file system for one run: the
status each call would return (0 is `CL_SUCCESS`, negative is failure), the
kernel-source file contents (none when the file cannot be opened), and the
compiler build log. -/
structure OclApi where
  platformStatus : Int
  gpuStatus : Int
  cpuStatus : Int
  contextStatus : Int
  fileContents : Option String
  createProgramStatus : Int
  buildStatus : Int
  buildLog : String
  queueStatus : Int
  kernelStatus : Int
  argStatus : Fin 4 → Int
  bufStatus : Fin 3 → Int
  writeStatus : Fin 2 → Int

/-- Class of the device handle returned by `create_device`. -/
inductive Dev where
  | gpu
  | cpu
  deriving DecidableEq

/-- `create_device` (vector_add_opencl.cpp lines 233-258): get the first
platform (fatal on failure); try `CL_DEVICE_TYPE_GPU`; exactly when that
returns `CL_DEVICE_NOT_FOUND`, print the fallback message and try
`CL_DEVICE_TYPE_CPU`; then `if (err < 0)` print a diagnostic and exit(1). -/
def create_device_run (api : OclApi) : List Ev × Option Dev :=
  if api.platformStatus < 0 then
    ([Ev.perrorMsg "Couldn\x27t identify a platform", Ev.exitCode 1], none)
  else
    let fb := api.gpuStatus = CL_DEVICE_NOT_FOUND
    let err := if fb then api.cpuStatus else api.gpuStatus
    let evs : List Ev :=
      if fb then [Ev.printMsg "GPU not found, falling back to CPU\n"] else []
    let dev := if fb then Dev.cpu else Dev.gpu
    if err < 0 then
      (evs ++ [Ev.perrorMsg "Couldn\x27t access any devices", Ev.exitCode 1], none)
    else (evs, some dev)

/-- `build_program` (vector_add_opencl.cpp lines 188-230): fatal if the source
file cannot be opened or `clCreateProgramWithSource` fails; if
`clBuildProgram` fails, fetch the build log, `printf("%s\n", program_log)` and
exit(1); otherwise return normally. The `Bool` is true when the process
exited. -/
def build_program_run (api : OclApi) : List Ev × Bool :=
  match api.fileContents with
  | none => ([Ev.perrorMsg "Couldn\x27t find the program file", Ev.exitCode 1], true)
  | some _src =>
      if api.createProgramStatus < 0 then
        ([Ev.perrorMsg "Couldn\x27t create the program", Ev.exitCode 1], true)
      else if api.buildStatus < 0 then
        ([Ev.printMsg (api.buildLog ++ "\n"), Ev.exitCode 1], true)
      else ([], false)

/-- `setup_openCL_device_context_queue_kernel` (lines 159-185): device, then
context, then program build, then command queue, then kernel, each checked and
fatal on failure. The last assignment to the global `err` on the success path
is the `clCreateKernel` status. -/
def setup_openCL_device_context_queue_kernel_run (api : OclApi) : List Ev × Bool :=
  match create_device_run api with
  | (t, none) => (t, true)
  | (t, some _dev) =>
      if api.contextStatus < 0 then
        (t ++ [Ev.perrorMsg "Couldn\x27t create a context", Ev.exitCode 1], true)
      else
        match build_program_run api with
        | (t2, true) => (t ++ t2, true)
        | (t2, false) =>
            if api.queueStatus < 0 then
              (t ++ t2 ++
                [Ev.perrorMsg "Couldn\x27t create a command queue", Ev.exitCode 1], true)
            else if api.kernelStatus < 0 then
              (t ++ t2 ++ [Ev.perrorMsg "Couldn\x27t create a kernel", Ev.exitCode 1],
                true)
            else (t ++ t2, false)

/-- `setup_kernel_memory` (lines 147-156): three `clCreateBuffer` calls with a
NULL error-code pointer, then two `clEnqueueWriteBuffer` calls whose returned
statuses are discarded. No status is inspected and no exit path exists,
whatever the statuses `_bufStatus` and `_writeStatus` are. -/
def setup_kernel_memory_run (_bufStatus : Fin 3 → Int) (_writeStatus : Fin 2 → Int) :
    List Ev :=
  [Ev.createBuffer 1, Ev.createBuffer 2, Ev.createBuffer 3,
   Ev.writeBuffer 1, Ev.writeBuffer 2]

/-- `copy_kernel_args` (lines 134-144): four `clSetKernelArg` calls whose
return values are discarded (none is assigned to the global `err`), followed
by `if (err < 0) { perror(...); exit(1); }`, which tests the stale global
`err` left by earlier setup. The outcome depends only on `errGlobal`, never on
the four binding statuses `_argStatus`. -/
def copy_kernel_args_run (errGlobal : Int) (_argStatus : Fin 4 → Int) :
    List Ev × Bool :=
  ([Ev.setArg 0, Ev.setArg 1, Ev.setArg 2, Ev.setArg 3] ++
    (if errGlobal < 0 then
      [Ev.perrorMsg "Couldn\x27t set kernel arguments", Ev.exitCode 1]
    else []),
   if errGlobal < 0 then true else false)

/-- `free_memory` (lines 117-131): release the three device buffers, the
kernel, the command queue, the program and the context, in that order, then
free the three host arrays. -/
def free_memory_run : List Ev :=
  [Ev.releaseBuf 1, Ev.releaseBuf 2, Ev.releaseBuf 3,
   Ev.releaseKernel, Ev.releaseQueue, Ev.releaseProgram, Ev.releaseContext,
   Ev.freeHost 1, Ev.freeHost 2, Ev.freeHost 3]

/-- `main` of vector_add_opencl.cpp (lines 32-84) as an event trace over the
API behaviour `api`: print the inputs, run setup (stopping if it exited), then
`setup_kernel_memory`, `copy_kernel_args` (its stale-`err` test reads
`api.kernelStatus`, the last value assigned to the global `err` during setup),
then enqueue, wait, read back, print the result and timing, release
everything, and return 0. -/
def main_run (api : OclApi) : List Ev :=
  let prologue := [Ev.printMsg "Vector v1:\n", Ev.printArray,
                   Ev.printMsg "Vector v2:\n", Ev.printArray]
  match setup_openCL_device_context_queue_kernel_run api with
  | (t, true) => prologue ++ t
  | (t, false) =>
      let errGlobal := api.kernelStatus
      match copy_kernel_args_run errGlobal api.argStatus with
      | (ta, true) =>
          prologue ++ t ++ setup_kernel_memory_run api.bufStatus api.writeStatus ++ ta
      | (ta, false) =>
          prologue ++ t ++ setup_kernel_memory_run api.bufStatus api.writeStatus ++
            ta ++
            [Ev.enqueueKernel, Ev.waitEvent, Ev.readBuffer,
             Ev.printMsg "Vector v_out (OpenCL):\n", Ev.printArray, Ev.printTiming] ++
            free_memory_run ++ [Ev.exitCode 0]

/-- C7: `free_memory` destroys, each exactly once, the three device buffers,
then the kernel, then the command queue, then the program, then the context,
in that exact order (and only then frees the host arrays). -/
theorem c7_release_order :
    free_memory_run =
      [Ev.releaseBuf 1, Ev.releaseBuf 2, Ev.releaseBuf 3, Ev.releaseKernel,
       Ev.releaseQueue, Ev.releaseProgram, Ev.releaseContext,
       Ev.freeHost 1, Ev.freeHost 2, Ev.freeHost 3] ∧
    free_memory_run.count (Ev.releaseBuf 1) = 1 ∧
    free_memory_run.count (Ev.releaseBuf 2) = 1 ∧
    free_memory_run.count (Ev.releaseBuf 3) = 1 ∧
    free_memory_run.count Ev.releaseKernel = 1 ∧
    free_memory_run.count Ev.releaseQueue = 1 ∧
    free_memory_run.count Ev.releaseProgram = 1 ∧
    free_memory_run.count Ev.releaseContext = 1 := by
  refine ⟨rfl, ?_, ?_, ?_, ?_, ?_, ?_, ?_⟩ <;> decide

/-- C3 (exhibiting the code bug): with the stale global `err = 0` left by a
successful setup, all four kernel-argument bindings failing with
`CL_INVALID_VALUE` (-30) do NOT terminate the process — `copy_kernel_args`
reports no exit and emits no exit event, because the four return values are
discarded and the guard tests the stale global; and `setup_kernel_memory`
checks nothing at all: with all three buffer allocations failing
(`CL_MEM_OBJECT_ALLOCATION_FAILURE`, -4) and both uploads failing, its trace
still contains no exit event. -/
theorem c3_failures_not_fatal :
    (copy_kernel_args_run 0 (fun _ => -30)).2 = false ∧
    Ev.exitCode 1 ∉ (copy_kernel_args_run 0 (fun _ => -30)).1 ∧
    Ev.exitCode 1 ∉ setup_kernel_memory_run (fun _ => -4) (fun _ => -4) := by
  refine ⟨rfl, ?_, ?_⟩ <;> decide

/-- C5: device selection is GPU-first: if the GPU query succeeds, the GPU
device is returned with no fallback; a CPU device can only be returned when
the GPU query reported `CL_DEVICE_NOT_FOUND`; and when both the GPU and the
CPU query report `CL_DEVICE_NOT_FOUND`, the run prints a diagnostic and
terminates with exit code 1. -/
theorem c5_device_selection (api : OclApi) (hp : ¬ api.platformStatus < 0) :
    (api.gpuStatus = 0 → create_device_run api = ([], some Dev.gpu)) ∧
    (api.gpuStatus ≠ CL_DEVICE_NOT_FOUND →
      (create_device_run api).2 ≠ some Dev.cpu) ∧
    (api.gpuStatus = CL_DEVICE_NOT_FOUND → api.cpuStatus = CL_DEVICE_NOT_FOUND →
      create_device_run api =
        ([Ev.printMsg "GPU not found, falling back to CPU\n",
          Ev.perrorMsg "Couldn\x27t access any devices", Ev.exitCode 1], none)) := by
  refine ⟨?_, ?_, ?_⟩
  · intro hg
    simp only [create_device_run, CL_DEVICE_NOT_FOUND, if_neg hp, hg]
    norm_num
  · intro hne
    simp only [create_device_run, if_neg hp, if_neg hne]
    split <;> simp
  · intro h1 h2
    simp only [CL_DEVICE_NOT_FOUND] at h1 h2
    simp only [create_device_run, if_neg hp]
    simp [h1, h2, CL_DEVICE_NOT_FOUND]

/-- An API behaviour in which every call succeeds. -/
def apiAllOk : OclApi :=
  { platformStatus := 0, gpuStatus := 0, cpuStatus := 0, contextStatus := 0,
    fileContents := some "kernel source", createProgramStatus := 0, buildStatus := 0,
    buildLog := "", queueStatus := 0, kernelStatus := 0,
    argStatus := fun _ => 0, bufStatus := fun _ => 0, writeStatus := fun _ => 0 }

theorem c5_device_selection_witness :
    create_device_run apiAllOk = ([], some Dev.gpu) :=
  (c5_device_selection apiAllOk (by decide)).1 rfl

/-- C4: when setup reaches the program build (platform, GPU device and context
succeed, the kernel-source file opens, `clCreateProgramWithSource` succeeds)
and `clBuildProgram` fails, the whole run prints the compiler build log — text
that is never empty — and stops with exit code 1, and no device buffer is ever
allocated (no `clCreateBuffer` event occurs in the trace). -/
theorem c4_build_failure (api : OclApi)
    (hp : ¬ api.platformStatus < 0) (hg : api.gpuStatus = 0)
    (hc : ¬ api.contextStatus < 0) (hf : api.fileContents.isSome)
    (hcp : ¬ api.createProgramStatus < 0) (hb : api.buildStatus < 0) :
    main_run api =
      [Ev.printMsg "Vector v1:\n", Ev.printArray, Ev.printMsg "Vector v2:\n",
       Ev.printArray, Ev.printMsg (api.buildLog ++ "\n"), Ev.exitCode 1] ∧
    (∀ idx : Nat, Ev.createBuffer idx ∉ main_run api) ∧
    api.buildLog ++ "\n" ≠ "" := by
  obtain ⟨s, hs⟩ := Option.isSome_iff_exists.mp hf
  have hcd : create_device_run api = ([], some Dev.gpu) :=
    (c5_device_selection api hp).1 hg
  have hbp : build_program_run api =
      ([Ev.printMsg (api.buildLog ++ "\n"), Ev.exitCode 1], true) := by
    simp only [build_program_run, hs]
    rw [if_neg hcp, if_pos hb]
  have hsetup : setup_openCL_device_context_queue_kernel_run api =
      ([Ev.printMsg (api.buildLog ++ "\n"), Ev.exitCode 1], true) := by
    simp only [setup_openCL_device_context_queue_kernel_run, hcd, hbp, if_neg hc]
    simp
  have hmain : main_run api =
      [Ev.printMsg "Vector v1:\n", Ev.printArray, Ev.printMsg "Vector v2:\n",
       Ev.printArray, Ev.printMsg (api.buildLog ++ "\n"), Ev.exitCode 1] := by
    simp only [main_run, hsetup]
    rfl
  refine ⟨hmain, ?_, ?_⟩
  · intro idx
    rw [hmain]
    simp
  · intro hEq
    have hlen := congrArg String.length hEq
    rw [String.length_append] at hlen
    simp only [show ("\n" : String).length = 1 from rfl,
      show ("" : String).length = 0 from rfl] at hlen
    omega

/-- An API behaviour in which everything up to the program build succeeds and
the build itself fails with `CL_BUILD_PROGRAM_FAILURE`. -/
def apiBuildFail : OclApi :=
  { platformStatus := 0, gpuStatus := 0, cpuStatus := 0, contextStatus := 0,
    fileContents := some "bad kernel source", createProgramStatus := 0,
    buildStatus := -11, buildLog := "syntax error", queueStatus := 0,
    kernelStatus := 0, argStatus := fun _ => 0, bufStatus := fun _ => 0,
    writeStatus := fun _ => 0 }

theorem c4_build_failure_witness :
    main_run apiBuildFail =
      [Ev.printMsg "Vector v1:\n", Ev.printArray, Ev.printMsg "Vector v2:\n",
       Ev.printArray, Ev.printMsg ("syntax error" ++ "\n"), Ev.exitCode 1] :=
  (c4_build_failure apiBuildFail (by decide) rfl (by decide) rfl (by decide)
    (by decide)).1
